import Mathlib

/-!
Verification of the polling scheduler and health-classification engine of
the microservices-status-dashboard repository, shallowly embedded from
`backend/services/healthCheck.js` and its config routes.

Conventions of the embedding:
* JS numbers that hold millisecond counts or HTTP codes are `Nat`.
* `fetch` is external I/O; its result is the inductive `ProbeOutcome`
  (response received with `ok` flag and status code, `AbortError`, or any
  other rejection) plus the measured elapsed time, both passed as inputs.
* A JS `Map` is an insertion-ordered association list; `mapSet` replaces in
  place or appends, `mapGet` looks up — matching `Map.set` / `Map.get`.
* `fs.readFileSync` + `JSON.parse` of the config file is an `Option Config`
  input (`none` = read or parse failure, which the source catches).
* Functions that the source lets throw return `Except String`.
-/

deriving instance DecidableEq for Except

namespace Dashboard

/-- Global settings object from the config document; the source reads
`timeoutThreshold`, `warningThreshold` and `defaultPollInterval` from it
(the last may be absent). -/
structure Settings where
  timeoutThreshold : Nat
  warningThreshold : Nat
  defaultPollInterval : Option Nat
deriving Repr, DecidableEq

/-- A service definition as stored in `config.services`. -/
structure ServiceDefinition where
  id : String
  name : String
  endpoint : String
  type : String
  category : String
  pollInterval : Nat
  criticalService : Bool
  metadata : Option (List (String × String))
deriving Repr, DecidableEq

/-- The three classification outcomes stored in `status`. -/
inductive Status where
  | healthy
  | warning
  | down
deriving Repr, DecidableEq

/-- The object returned by `checkServiceHealth`. -/
structure CheckResult where
  id : String
  name : String
  status : Status
  responseTime : Nat
  lastChecked : String
  message : Option String
  type : String
  category : String
deriving Repr, DecidableEq

/-- Outcome of the `fetch` call inside `checkServiceHealth`: either a
response object (with its `ok` flag and `status` code), or a rejection,
which the catch block splits on `error.name === 'AbortError'`. -/
inductive ProbeOutcome where
  | response (ok : Bool) (httpStatus : Nat)
  | abortError
  | connectionError
deriving Repr, DecidableEq

/-- `checkServiceHealth(service)`: classifies one probe outcome.
`responseTime` is the measured `Date.now() - startTime` and `now` the
ISO timestamp taken for `lastChecked`. -/
def checkServiceHealth (settings : Settings) (service : ServiceDefinition)
    (outcome : ProbeOutcome) (responseTime : Nat) (now : String) : CheckResult :=
  match outcome with
  | .response ok httpStatus =>
      let sm : Status × Option String :=
        if !ok then
          (.down, some ("HTTP " ++ toString httpStatus))
        else if responseTime > settings.timeoutThreshold then
          (.down, some "Timeout")
        else if responseTime > settings.warningThreshold then
          (.warning, some "High Latency")
        else
          (.healthy, none)
      { id := service.id, name := service.name, status := sm.1,
        responseTime := responseTime, lastChecked := now, message := sm.2,
        type := service.type, category := service.category }
  | .abortError =>
      { id := service.id, name := service.name, status := .down,
        responseTime := responseTime, lastChecked := now,
        message := some "Timeout",
        type := service.type, category := service.category }
  | .connectionError =>
      { id := service.id, name := service.name, status := .down,
        responseTime := responseTime, lastChecked := now,
        message := some "Connection Failed",
        type := service.type, category := service.category }

/-- The persisted configuration document: `{services, settings}`. -/
structure Config where
  services : List ServiceDefinition
  settings : Settings
deriving Repr, DecidableEq

/-- The mutable fields of the `HealthCheckService` singleton.
`statusCache` and `pollingIntervals` model the two JS `Map`s; for
`pollingIntervals` only the key set (the interval lengths) matters, the
values being opaque timer handles. -/
structure SchedulerState where
  services : List ServiceDefinition
  settings : Settings
  statusCache : List (String × CheckResult)
  pollingIntervals : List Nat
deriving Repr, DecidableEq

/-- `Map.prototype.set`: replace the entry in place if the key exists,
otherwise append (JS maps preserve insertion order). -/
def mapSet (m : List (String × CheckResult)) (k : String) (v : CheckResult) :
    List (String × CheckResult) :=
  if m.any (fun p => p.1 = k) then
    m.map (fun p => if p.1 = k then (k, v) else p)
  else
    m ++ [(k, v)]

/-- `Map.prototype.get`. -/
def mapGet (m : List (String × CheckResult)) (k : String) : Option CheckResult :=
  (m.find? (fun p => p.1 = k)).map (fun p => p.2)

/-- The hardcoded fallback settings assigned in the catch branch of
`loadConfiguration`. -/
def defaultSettings : Settings :=
  { timeoutThreshold := 5000, warningThreshold := 2000, defaultPollInterval := none }

/-- `loadConfiguration()`: on a successful read/parse, install the
document's services and settings; on failure (`readResult = none`) fall
back to no services and the hardcoded defaults. Never throws. -/
def loadConfiguration (readResult : Option Config) (st : SchedulerState) :
    SchedulerState :=
  match readResult with
  | some config => { st with services := config.services, settings := config.settings }
  | none => { st with services := [], settings := defaultSettings }

/-- An environment for one polling round: per service, the fetch outcome
and the measured elapsed milliseconds. -/
def ProbeEnv : Type := ServiceDefinition → ProbeOutcome × Nat

/-- The body shared by `checkAllServices` and each group's `pollGroup`:
check every listed service and merge each result into the cache under
`result.id`. -/
def runRound (settings : Settings) (group : List ServiceDefinition)
    (probe : ProbeEnv) (now : String)
    (cache : List (String × CheckResult)) : List (String × CheckResult) :=
  let results := group.map (fun s => checkServiceHealth settings s (probe s).1 (probe s).2 now)
  results.foldl (fun c r => mapSet c r.id r) cache

/-- `checkAllServices()`: probe every configured service, merge the
results into the status cache, and return them (the emit to `io` carries
the returned list and is outside the state). -/
def checkAllServices (st : SchedulerState) (probe : ProbeEnv) (now : String) :
    SchedulerState × List CheckResult :=
  let results := st.services.map (fun s => checkServiceHealth st.settings s (probe s).1 (probe s).2 now)
  ({ st with statusCache := results.foldl (fun c r => mapSet c r.id r) st.statusCache },
   results)

/-- Insert a service into the interval-group map under its interval key,
as the `intervalGroups` loop of `startPolling` does. -/
def groupInsert (gs : List (Nat × List ServiceDefinition)) (interval : Nat)
    (s : ServiceDefinition) : List (Nat × List ServiceDefinition) :=
  if gs.any (fun g => g.1 = interval) then
    gs.map (fun g => if g.1 = interval then (g.1, g.2 ++ [s]) else g)
  else
    gs ++ [(interval, [s])]

/-- The `intervalGroups` map of `startPolling`: services partitioned by
`pollInterval * 1000`, in first-seen order. -/
def intervalGroups (services : List ServiceDefinition) :
    List (Nat × List ServiceDefinition) :=
  services.foldl (fun gs s => groupInsert gs (s.pollInterval * 1000) s) []

/-- `startPolling()`: build the interval groups, and for each group run
the initial `pollGroup()` round (merging its results into the cache) and
register the recurring timer under the interval key. -/
def startPolling (st : SchedulerState) (probe : ProbeEnv) (now : String) :
    SchedulerState :=
  (intervalGroups st.services).foldl
    (fun acc g =>
      { acc with
        statusCache := runRound st.settings g.2 probe now acc.statusCache,
        pollingIntervals := acc.pollingIntervals ++ [g.1] })
    st

/-- `getAllStatuses()`. -/
def getAllStatuses (st : SchedulerState) : List CheckResult :=
  st.statusCache.map (fun p => p.2)

/-- `getServiceStatus(serviceId)`. -/
def getServiceStatus (st : SchedulerState) (serviceId : String) : Option CheckResult :=
  mapGet st.statusCache serviceId

/-- `reloadConfiguration()`: clear every timer and the cache, then reload
the document and restart polling. -/
def reloadConfiguration (readResult : Option Config) (st : SchedulerState)
    (probe : ProbeEnv) (now : String) : SchedulerState :=
  let cleared := { st with pollingIntervals := [], statusCache := [] }
  startPolling (loadConfiguration readResult cleared) probe now

/-- JS `\s` regexp class, for the `replace(/\s+/g, '-')` step. -/
def isJsSpace (c : Char) : Bool :=
  c = ' ' || c = '\t' || c = '\n' || c = '\x0d' || c = '\x0b' || c = '\x0c'

/-- Replace every maximal run of characters satisfying `p` by a single
hyphen; the flag records whether the previous character was in a run. -/
def collapseRuns (p : Char → Bool) : Bool → List Char → List Char
  | _, [] => []
  | inRun, c :: cs =>
    if p c then
      if inRun then collapseRuns p true cs
      else '-' :: collapseRuns p true cs
    else c :: collapseRuns p false cs

/-- Characters kept by the `replace(/[^a-z0-9-]/g, '')` step. -/
def isKeptChar (c : Char) : Bool :=
  ('a' ≤ c && c ≤ 'z') || ('0' ≤ c && c ≤ '9') || c = '-'

/-- `toLowerCase()` applied character by character (ASCII case mapping,
which is all the derivation below distinguishes). -/
def jsToLower (s : String) : String :=
  String.mk (s.data.map Char.toLower)

/-- The identifier derivation of `addService` when no id is supplied:
`name.toLowerCase().replace(/\s+/g, '-').replace(/[^a-z0-9-]/g, '')` —
lowercase, each whitespace run becomes one hyphen, and every remaining
character outside `[a-z0-9-]` is deleted. -/
def derivedId (name : String) : String :=
  String.mk ((collapseRuns isJsSpace false (jsToLower name).data).filter isKeptChar)

/-- The derivation as the spec words it: lowercase, every run of
non-alphanumeric characters collapsed to a hyphen. Modelled from the
spec's words, for comparison with `derivedId`. -/
def specDerivedId (name : String) : String :=
  String.mk (collapseRuns
    (fun c => !(('a' ≤ c && c ≤ 'z') || ('0' ≤ c && c ≤ '9')))
    false (jsToLower name).data)

/-- The request payload of `addService` (`serviceData`). `name` and
`endpoint` are plain strings (the route already required them); the rest
of the fields may be absent. An absent or empty-string id counts as not
provided, matching the falsy test `if (!serviceData.id)`. -/
structure ServiceData where
  id : Option String
  name : String
  endpoint : String
  type : Option String
  category : Option String
  pollInterval : Option Nat
  criticalService : Option Bool
  metadata : Option (List (String × String))
deriving Repr, DecidableEq

/-- JS `a || b` on an optional string: an absent or empty string falls
through to the default. -/
def jsOrString (o : Option String) (d : String) : String :=
  match o with
  | some s => if s = "" then d else s
  | none => d

/-- JS `a || b` on an optional number: absent or `0` falls through. -/
def jsOrNat (o : Option Nat) (d : Nat) : Nat :=
  match o with
  | some n => if n = 0 then d else n
  | none => d

/-- The effective identifier used by `addService`: the given id if truthy,
otherwise derived from the name. -/
def effectiveId (sd : ServiceData) : String :=
  jsOrString sd.id (derivedId sd.name)

/-- Outcome of a mutation call: the value returned or the error thrown,
together with the contents of the persisted document (`none` when it is
unreadable) and the scheduler state after the call. -/
structure OpResult where
  outcome : Except String ServiceDefinition
  store : Option Config
  sched : SchedulerState
deriving Repr, DecidableEq

/-- `addService(serviceData)`: read the document, derive the id if absent,
reject a duplicate id, otherwise append the defaulted definition, persist,
and rebuild via `reloadConfiguration`. The thrown error leaves both the
document and the scheduler untouched. -/
def addService (readResult : Option Config) (st : SchedulerState)
    (sd : ServiceData) (probe : ProbeEnv) (now : String) : OpResult :=
  match readResult with
  | none => ⟨.error "config read failed", none, st⟩
  | some config =>
    let id := effectiveId sd
    if config.services.any (fun s => s.id = id) then
      ⟨.error ("Service with ID \x22" ++ id ++ "\x22 already exists"), some config, st⟩
    else
      let newService : ServiceDefinition :=
        { id := id, name := sd.name, endpoint := sd.endpoint,
          type := jsOrString sd.type "internal",
          category := jsOrString sd.category "core",
          pollInterval := jsOrNat sd.pollInterval (jsOrNat st.settings.defaultPollInterval 60),
          criticalService := sd.criticalService.getD false,
          metadata := sd.metadata }
      let config2 : Config := { config with services := config.services ++ [newService] }
      ⟨.ok newService, some config2, reloadConfiguration (some config2) st probe now⟩

/-- `deleteService(serviceId)`: read the document, find the definition by
id, throw "not found" if absent (document and scheduler untouched), else
remove it, persist, and rebuild via `reloadConfiguration`. -/
def deleteService (readResult : Option Config) (st : SchedulerState)
    (serviceId : String) (probe : ProbeEnv) (now : String) : OpResult :=
  match readResult with
  | none => ⟨.error "config read failed", none, st⟩
  | some config =>
    match config.services.findIdx? (fun s => s.id = serviceId) with
    | none =>
      ⟨.error ("Service with ID \x22" ++ serviceId ++ "\x22 not found"), some config, st⟩
    | some i =>
      match config.services.get? i with
      | none => ⟨.error "unreachable", some config, st⟩
      | some deleted =>
        let config2 : Config := { config with services := config.services.eraseIdx i }
        ⟨.ok deleted, some config2, reloadConfiguration (some config2) st probe now⟩

/-- The response of a route handler, reduced to what the claims need: the
HTTP status code it sends and the `message` field of an error body. -/
structure ApiResponse where
  httpStatus : Nat
  message : Option String
deriving Repr, DecidableEq

/-- The `POST /api/config/service` handler: 400 when name or endpoint is
falsy, 400 when `new URL(endpoint)` throws (`urlValid` is that check's
outcome, evaluated by the runtime), otherwise call `addService`; any error
it throws is caught and answered with status 500 and the error's message.
The body carries no `id` field — the handler never forwards one. -/
def postConfigService (readResult : Option Config) (st : SchedulerState)
    (name endpoint : String) (type category : Option String)
    (pollInterval : Option Nat) (criticalService : Option Bool)
    (metadata : Option (List (String × String))) (urlValid : Bool)
    (probe : ProbeEnv) (now : String) :
    ApiResponse × Option Config × SchedulerState :=
  if name = "" || endpoint = "" then
    (⟨400, some "Name and endpoint are required"⟩, readResult, st)
  else if !urlValid then
    (⟨400, some "Endpoint must be a valid URL"⟩, readResult, st)
  else
    let sd : ServiceData :=
      { id := none, name := name, endpoint := endpoint, type := type,
        category := category, pollInterval := pollInterval,
        criticalService := criticalService, metadata := metadata }
    let r := addService readResult st sd probe now
    match r.outcome with
    | .ok _ => (⟨200, none⟩, r.store, r.sched)
    | .error msg => (⟨500, some msg⟩, r.store, r.sched)

/-! Concrete fixtures used to evaluate the definitions. -/

/-- A sample configured service. -/
def svcA : ServiceDefinition :=
  { id := "service-a", name := "Service A", endpoint := "http://a/health",
    type := "internal", category := "core", pollInterval := 30,
    criticalService := false, metadata := none }

/-- A one-service configuration document. -/
def cfgA : Config := { services := [svcA], settings := defaultSettings }

/-- Scheduler state after loading `cfgA`, before any round. -/
def stA : SchedulerState :=
  { services := [svcA], settings := defaultSettings, statusCache := [], pollingIntervals := [] }

/-- An environment where every probe answers HTTP 200 in 100 ms. -/
def probeOk : ProbeEnv := fun _ => (.response true 200, 100)

/-- The empty configuration document. -/
def emptyConfig : Config := { services := [], settings := defaultSettings }

/-- The empty scheduler state. -/
def emptyState : SchedulerState :=
  { services := [], settings := defaultSettings, statusCache := [], pollingIntervals := [] }

/-- An add request whose name contains a dot and no explicit id. -/
def sdDotted : ServiceData :=
  { id := none, name := "A.B", endpoint := "http://x", type := none,
    category := none, pollInterval := none, criticalService := none, metadata := none }

/-! Helper lemmas. -/

theorem checkServiceHealth_id (settings : Settings) (service : ServiceDefinition)
    (outcome : ProbeOutcome) (responseTime : Nat) (now : String) :
    (checkServiceHealth settings service outcome responseTime now).id = service.id := by
  cases outcome <;> rfl

theorem status_mem_all (s : Status) :
    s ∈ [Status.healthy, Status.warning, Status.down] := by
  cases s <;> simp

/-! ## C1 -/

/-- C1: the claim that every received response with elapsed ≥
timeoutThreshold classifies down/"Timeout" regardless of the ok flag is
false on the code: a non-ok response at 6000 ms keeps message "HTTP 503",
and an ok response at exactly the threshold (5000 ms ≥ 5000 ms) is
classified warning, not down. -/
theorem timeout_claim_cex :
    6000 ≥ defaultSettings.timeoutThreshold ∧
    (checkServiceHealth defaultSettings svcA (.response false 503) 6000 "t").message
      = some "HTTP 503" ∧
    some "HTTP 503" ≠ some "Timeout" ∧
    5000 ≥ defaultSettings.timeoutThreshold ∧
    (checkServiceHealth defaultSettings svcA (.response true 200) 5000 "t").status
      = Status.warning ∧
    Status.warning ≠ Status.down := by
  refine ⟨by decide, rfl, by decide, by decide, rfl, by decide⟩

/-- C1 (amended): for a received response with ok status and elapsed
strictly greater than timeoutThreshold, the classifier returns down with
message "Timeout". -/
theorem timeout_amended (s : Settings) (svc : ServiceDefinition)
    (code elapsed : Nat) (now : String)
    (h : s.timeoutThreshold < elapsed) :
    (checkServiceHealth s svc (.response true code) elapsed now).status = Status.down ∧
    (checkServiceHealth s svc (.response true code) elapsed now).message = some "Timeout" := by
  simp [checkServiceHealth, h]

/-- Witness for `timeout_amended` at elapsed 6000 against the default
thresholds. -/
theorem timeout_amended_witness :
    defaultSettings.timeoutThreshold < 6000 ∧
    ((checkServiceHealth defaultSettings svcA (.response true 200) 6000 "t").status
        = Status.down ∧
      (checkServiceHealth defaultSettings svcA (.response true 200) 6000 "t").message
        = some "Timeout") :=
  ⟨by decide, timeout_amended defaultSettings svcA 200 6000 "t" (by decide)⟩

/-! ## C2 -/

/-- C2: a received response with ok status and elapsed ≤ warningThreshold
classifies healthy with no message (under the documented settings
invariant warningThreshold < timeoutThreshold). -/
theorem healthy_classification (s : Settings) (svc : ServiceDefinition)
    (code elapsed : Nat) (now : String)
    (hs : s.warningThreshold < s.timeoutThreshold)
    (h : elapsed ≤ s.warningThreshold) :
    (checkServiceHealth s svc (.response true code) elapsed now).status = Status.healthy ∧
    (checkServiceHealth s svc (.response true code) elapsed now).message = none := by
  have h1 : ¬ elapsed > s.timeoutThreshold := by omega
  have h2 : ¬ elapsed > s.warningThreshold := by omega
  simp [checkServiceHealth, h1, h2]

/-- Witness for `healthy_classification` at 150 ms against the default
thresholds. -/
theorem healthy_classification_witness :
    defaultSettings.warningThreshold < defaultSettings.timeoutThreshold ∧
    150 ≤ defaultSettings.warningThreshold ∧
    ((checkServiceHealth defaultSettings svcA (.response true 200) 150 "t").status
        = Status.healthy ∧
      (checkServiceHealth defaultSettings svcA (.response true 200) 150 "t").message
        = none) :=
  ⟨by decide, by decide,
    healthy_classification defaultSettings svcA 200 150 "t" (by decide) (by decide)⟩

/-! ## C3 -/

/-- C3: the claim's warning band [warningThreshold, timeoutThreshold) is
false at its left end: an ok response at exactly warningThreshold
(2000 ms) is classified healthy with no message, not warning. -/
theorem warning_claim_cex :
    2000 ≥ defaultSettings.warningThreshold ∧
    2000 < defaultSettings.timeoutThreshold ∧
    (checkServiceHealth defaultSettings svcA (.response true 200) 2000 "t").status
      = Status.healthy ∧
    (checkServiceHealth defaultSettings svcA (.response true 200) 2000 "t").message
      = none ∧
    Status.healthy ≠ Status.warning := by
  refine ⟨by decide, by decide, rfl, rfl, by decide⟩

/-- C3 (amended): the warning band is exclusive-inclusive: an ok response
with warningThreshold < elapsed ≤ timeoutThreshold classifies warning with
message "High Latency". -/
theorem warning_amended (s : Settings) (svc : ServiceDefinition)
    (code elapsed : Nat) (now : String)
    (h1 : s.warningThreshold < elapsed) (h2 : elapsed ≤ s.timeoutThreshold) :
    (checkServiceHealth s svc (.response true code) elapsed now).status = Status.warning ∧
    (checkServiceHealth s svc (.response true code) elapsed now).message
      = some "High Latency" := by
  have h3 : ¬ elapsed > s.timeoutThreshold := by omega
  simp [checkServiceHealth, h1, h3]

/-- Witness for `warning_amended` at 3200 ms against the default
thresholds. -/
theorem warning_amended_witness :
    defaultSettings.warningThreshold < 3200 ∧ 3200 ≤ defaultSettings.timeoutThreshold ∧
    ((checkServiceHealth defaultSettings svcA (.response true 200) 3200 "t").status
        = Status.warning ∧
      (checkServiceHealth defaultSettings svcA (.response true 200) 3200 "t").message
        = some "High Latency") :=
  ⟨by decide, by decide,
    warning_amended defaultSettings svcA 200 3200 "t" (by decide) (by decide)⟩

/-! ## C4 -/

/-- C4: `checkServiceHealth` returns a normal `CheckResult` for every
outcome (its Lean embedding is total because the source wraps the whole
probe in try/catch); a connection failure yields down/"Connection Failed"
and an aborted request yields down/"Timeout", both for every elapsed
time. -/
theorem probe_failure_total (s : Settings) (svc : ServiceDefinition)
    (elapsed : Nat) (now : String) :
    (checkServiceHealth s svc .connectionError elapsed now =
      { id := svc.id, name := svc.name, status := .down, responseTime := elapsed,
        lastChecked := now, message := some "Connection Failed",
        type := svc.type, category := svc.category }) ∧
    (checkServiceHealth s svc .abortError elapsed now =
      { id := svc.id, name := svc.name, status := .down, responseTime := elapsed,
        lastChecked := now, message := some "Timeout",
        type := svc.type, category := svc.category }) ∧
    ∀ outcome : ProbeOutcome,
      (checkServiceHealth s svc outcome elapsed now).id = svc.id ∧
      (checkServiceHealth s svc outcome elapsed now).status
        ∈ [Status.healthy, Status.warning, Status.down] :=
  ⟨rfl, rfl, fun outcome =>
    ⟨checkServiceHealth_id s svc outcome elapsed now,
     status_mem_all (checkServiceHealth s svc outcome elapsed now).status⟩⟩

/-! ## C5 -/

/-- C5: on a failed read or parse of the configuration document,
`loadConfiguration` installs an empty service list and exactly the
settings `{timeoutThreshold := 5000, warningThreshold := 2000}` (no
defaultPollInterval), leaving every other field of the state unchanged
and throwing nothing (the embedding is total). -/
theorem loadConfiguration_fallback (st : SchedulerState) :
    loadConfiguration none st =
      { st with services := [],
                settings := { timeoutThreshold := 5000, warningThreshold := 2000,
                              defaultPollInterval := none } } := rfl

/-! ## C6 -/

/-- C6: the claim that a duplicate-identifier add request gets a 400-class
response is false on the code: adding "Service A" to a store already
holding id "service-a" answers HTTP 500 (the route's generic catch), even
though the store and the scheduler are indeed left unmodified. -/
theorem post_duplicate_cex :
    (postConfigService (some cfgA) stA "Service A" "http://b/health"
        none none none none none true probeOk "t").1.httpStatus = 500 ∧
    ¬(400 ≤ (postConfigService (some cfgA) stA "Service A" "http://b/health"
        none none none none none true probeOk "t").1.httpStatus ∧
      (postConfigService (some cfgA) stA "Service A" "http://b/health"
        none none none none none true probeOk "t").1.httpStatus < 500) ∧
    (postConfigService (some cfgA) stA "Service A" "http://b/health"
        none none none none none true probeOk "t").2.1 = some cfgA ∧
    (postConfigService (some cfgA) stA "Service A" "http://b/health"
        none none none none none true probeOk "t").2.2 = stA := by
  decide

/-- C6 (amended): a duplicate-identifier add request (name and endpoint
present, URL valid) is answered with HTTP 500 carrying the "already
exists" message, and both the store document and the scheduler state are
left unmodified. -/
theorem post_duplicate_amended (cfg : Config) (st : SchedulerState)
    (name endpoint : String) (ty cat : Option String) (pin : Option Nat)
    (cs : Option Bool) (md : Option (List (String × String)))
    (probe : ProbeEnv) (now : String)
    (h1 : name ≠ "") (h2 : endpoint ≠ "")
    (hdup : cfg.services.any (fun s => s.id = derivedId name) = true) :
    postConfigService (some cfg) st name endpoint ty cat pin cs md true probe now =
      (⟨500, some ("Service with ID \x22" ++ derivedId name ++ "\x22 already exists")⟩,
       some cfg, st) := by
  simp [postConfigService, addService, effectiveId, jsOrString, h1, h2, hdup]

/-- Witness for `post_duplicate_amended`: adding "Service A" against a
store already holding "service-a". -/
theorem post_duplicate_amended_witness :
    ("Service A" : String) ≠ "" ∧ ("http://b/health" : String) ≠ "" ∧
    cfgA.services.any (fun s => s.id = derivedId "Service A") = true ∧
    postConfigService (some cfgA) stA "Service A" "http://b/health"
        none none none none none true probeOk "t" =
      (⟨500, some ("Service with ID \x22" ++ derivedId "Service A" ++ "\x22 already exists")⟩,
       some cfgA, stA) :=
  ⟨by decide, by decide, by decide,
    post_duplicate_amended cfgA stA "Service A" "http://b/health"
      none none none none none probeOk "t" (by decide) (by decide) (by decide)⟩

/-! ## C7 -/

/-- C7: deleting an identifier held by no stored service returns the
"not found" error and leaves the store document and the scheduler state
(status cache and polling intervals included) exactly unchanged: no
persist, no cache clear, no rebuild. -/
theorem deleteService_not_found (cfg : Config) (st : SchedulerState)
    (serviceId : String) (probe : ProbeEnv) (now : String)
    (h : ∀ s ∈ cfg.services, s.id ≠ serviceId) :
    deleteService (some cfg) st serviceId probe now =
      ⟨.error ("Service with ID \x22" ++ serviceId ++ "\x22 not found"),
       some cfg, st⟩ := by
  have hf : cfg.services.findIdx? (fun s => s.id = serviceId) = none := by
    rw [List.findIdx?_eq_none_iff]
    intro x hx
    simp [h x hx]
  simp [deleteService, hf]

/-- Witness for `deleteService_not_found`: deleting id "nope" from a
store holding only "service-a". -/
theorem deleteService_not_found_witness :
    (∀ s ∈ cfgA.services, s.id ≠ "nope") ∧
    deleteService (some cfgA) stA "nope" probeOk "t" =
      ⟨.error ("Service with ID \x22nope\x22 not found"), some cfgA, stA⟩ :=
  ⟨by decide, deleteService_not_found cfgA stA "nope" probeOk "t" (by decide)⟩

/-! ## C8 -/

/-- The definition stored when `sdDotted` is added to an empty store. -/
def svcAB : ServiceDefinition :=
  { id := "ab", name := "A.B", endpoint := "http://x", type := "internal",
    category := "core", pollInterval := 60, criticalService := false,
    metadata := none }

/-- C8: the claim's derivation (non-alphanumeric runs collapse to a
hyphen) is false on the code: adding name "A.B" without an id stores the
identifier "ab" (the dot is deleted, not turned into a hyphen), while the
claimed rule yields "a-b". -/
theorem derivedId_cex :
    (addService (some emptyConfig) emptyState sdDotted probeOk "t").outcome
      = Except.ok svcAB ∧
    svcAB.id = "ab" ∧
    specDerivedId "A.B" = "a-b" ∧
    ("ab" : String) ≠ "a-b" := by
  refine ⟨by decide, by decide, by decide, by decide⟩

/-- C8 (amended): when the add request has no identifier, the stored
identifier equals `derivedId name`: lowercase the name, replace every
maximal whitespace run by one hyphen, then delete every remaining
character outside lowercase letters, digits and hyphen. -/
theorem addService_derived_id (cfg : Config) (st : SchedulerState)
    (sd : ServiceData) (probe : ProbeEnv) (now : String)
    (svc : ServiceDefinition)
    (hid : sd.id = none)
    (hok : (addService (some cfg) st sd probe now).outcome = Except.ok svc) :
    svc.id = derivedId sd.name := by
  by_cases hdup : (cfg.services.any fun s => s.id = effectiveId sd) = true
  · have he : (addService (some cfg) st sd probe now).outcome
        = Except.error ("Service with ID \x22" ++ effectiveId sd ++ "\x22 already exists") := by
      simp [addService, hdup]
    rw [he] at hok
    exact absurd hok (by simp)
  · have he : (addService (some cfg) st sd probe now).outcome
        = Except.ok
            { id := effectiveId sd, name := sd.name, endpoint := sd.endpoint,
              type := jsOrString sd.type "internal",
              category := jsOrString sd.category "core",
              pollInterval := jsOrNat sd.pollInterval (jsOrNat st.settings.defaultPollInterval 60),
              criticalService := sd.criticalService.getD false,
              metadata := sd.metadata } := by
      simp [addService, hdup]
    rw [he, Except.ok.injEq] at hok
    subst hok
    simp [effectiveId, jsOrString, hid]

/-- Witness for `addService_derived_id` on the "A.B" request against an
empty store. -/
theorem addService_derived_id_witness :
    sdDotted.id = none ∧
    (addService (some emptyConfig) emptyState sdDotted probeOk "t").outcome
      = Except.ok svcAB ∧
    svcAB.id = derivedId sdDotted.name :=
  ⟨rfl, by decide,
    addService_derived_id emptyConfig emptyState sdDotted probeOk "t" svcAB rfl (by decide)⟩

/-! ## C9 -/

/-- Key list of a cache map, in insertion order. -/
def cacheKeys (m : List (String × CheckResult)) : List String :=
  m.map (fun p => p.1)

/-- Effect of one `Map.set` on the key list. -/
def keysInsert (ks : List String) (k : String) : List String :=
  if k ∈ ks then ks else ks ++ [k]

theorem cacheKeys_mapSet (m : List (String × CheckResult)) (k : String) (v : CheckResult) :
    cacheKeys (mapSet m k v) = keysInsert (cacheKeys m) k := by
  unfold mapSet keysInsert cacheKeys
  by_cases h : (m.any fun p => p.1 = k) = true
  · rw [if_pos h]
    have hmem : k ∈ m.map (fun p => p.1) := by
      rw [List.any_eq_true] at h
      obtain ⟨x, hx, hxk⟩ := h
      simp only [decide_eq_true_eq] at hxk
      exact hxk ▸ List.mem_map_of_mem _ hx
    rw [if_pos hmem, List.map_map]
    apply List.map_congr_left
    intro p _
    by_cases hpk : p.1 = k
    · simp [Function.comp, hpk]
    · simp [Function.comp, hpk]
  · rw [if_neg h]
    have hmem : k ∉ m.map (fun p => p.1) := by
      intro hc
      apply h
      rw [List.any_eq_true]
      obtain ⟨p, hp, hpk⟩ := List.mem_map.mp hc
      exact ⟨p, hp, by simp [hpk]⟩
    rw [if_neg hmem, List.map_append]
    rfl

theorem cacheKeys_foldl (rs : List CheckResult) (m : List (String × CheckResult)) :
    cacheKeys (rs.foldl (fun c r => mapSet c r.id r) m)
      = (rs.map (fun r => r.id)).foldl keysInsert (cacheKeys m) := by
  induction rs generalizing m with
  | nil => rfl
  | cons r rs ih => simp [List.foldl_cons, ih, cacheKeys_mapSet]

theorem runRound_keys (settings : Settings) (group : List ServiceDefinition)
    (probe : ProbeEnv) (now : String) (cache : List (String × CheckResult)) :
    cacheKeys (runRound settings group probe now cache)
      = (group.map (fun s => s.id)).foldl keysInsert (cacheKeys cache) := by
  unfold runRound
  rw [cacheKeys_foldl, List.map_map]
  congr 1
  apply List.map_congr_left
  intro s _
  exact checkServiceHealth_id settings s (probe s).1 (probe s).2 now

theorem startPolling_fold_keys (settings : Settings) (probe : ProbeEnv) (now : String)
    (gs : List (Nat × List ServiceDefinition)) :
    ∀ acc : SchedulerState,
      cacheKeys ((gs.foldl (fun a g =>
          { a with statusCache := runRound settings g.2 probe now a.statusCache,
                   pollingIntervals := a.pollingIntervals ++ [g.1] }) acc).statusCache)
        = gs.foldl (fun ks g => (g.2.map (fun s => s.id)).foldl keysInsert ks)
            (cacheKeys acc.statusCache) := by
  induction gs with
  | nil => intro acc; rfl
  | cons g gs ih =>
    intro acc
    simp only [List.foldl_cons]
    rw [ih]
    congr 1
    exact runRound_keys settings g.2 probe now acc.statusCache

theorem startPolling_fold_intervals (settings : Settings) (probe : ProbeEnv) (now : String)
    (gs : List (Nat × List ServiceDefinition)) :
    ∀ acc : SchedulerState,
      ((gs.foldl (fun a g =>
          { a with statusCache := runRound settings g.2 probe now a.statusCache,
                   pollingIntervals := a.pollingIntervals ++ [g.1] }) acc).pollingIntervals)
        = acc.pollingIntervals ++ gs.map (fun g => g.1) := by
  induction gs with
  | nil => intro acc; simp
  | cons g gs ih =>
    intro acc
    simp only [List.foldl_cons]
    rw [ih]
    simp

theorem startPolling_keys (st : SchedulerState) (probe : ProbeEnv) (now : String) :
    cacheKeys (startPolling st probe now).statusCache
      = (intervalGroups st.services).foldl
          (fun ks g => (g.2.map (fun s => s.id)).foldl keysInsert ks)
          (cacheKeys st.statusCache) :=
  startPolling_fold_keys st.settings probe now (intervalGroups st.services) st

theorem startPolling_intervals (st : SchedulerState) (probe : ProbeEnv) (now : String) :
    (startPolling st probe now).pollingIntervals
      = st.pollingIntervals ++ (intervalGroups st.services).map (fun g => g.1) :=
  startPolling_fold_intervals st.settings probe now (intervalGroups st.services) st

/-- The scheduler state that any `reloadConfiguration` call repolls from:
cleared cache and timers, services and settings taken from the document
(or the fallback). It does not depend on the previous state. -/
theorem reloadConfiguration_eq (r : Option Config) (st : SchedulerState)
    (probe : ProbeEnv) (now : String) :
    reloadConfiguration r st probe now
      = startPolling
          (loadConfiguration r
            { services := [], settings := defaultSettings,
              statusCache := [], pollingIntervals := [] })
          probe now := by
  unfold reloadConfiguration
  cases r <;> rfl

/-- C9: `reloadConfiguration` is idempotent on the observable polling
structure: run twice in a row on the same document (with possibly
different probe outcomes and timestamps per round), the second run leaves
the same cache key set (same list, even) and the same polling-interval
set as the first. -/
theorem rebuild_idempotent (r : Option Config) (st : SchedulerState)
    (probe1 probe2 : ProbeEnv) (now1 now2 : String) :
    cacheKeys (reloadConfiguration r (reloadConfiguration r st probe1 now1)
        probe2 now2).statusCache
      = cacheKeys (reloadConfiguration r st probe1 now1).statusCache
    ∧ (reloadConfiguration r (reloadConfiguration r st probe1 now1)
        probe2 now2).pollingIntervals
      = (reloadConfiguration r st probe1 now1).pollingIntervals := by
  constructor
  · rw [reloadConfiguration_eq r st probe1 now1, reloadConfiguration_eq r _ probe2 now2,
      startPolling_keys, startPolling_keys]
  · rw [reloadConfiguration_eq r st probe1 now1, reloadConfiguration_eq r _ probe2 now2,
      startPolling_intervals, startPolling_intervals]

/-! ## C10 -/

/-- Invariant of the status cache: every entry stores a result whose id
equals the entry's key, whose status is one of the three legal values,
and whose response time is non-negative. -/
def cacheInvariant (m : List (String × CheckResult)) : Prop :=
  ∀ p ∈ m, p.2.id = p.1
    ∧ p.2.status ∈ [Status.healthy, Status.warning, Status.down]
    ∧ p.2.responseTime ≥ 0

theorem cacheInvariant_mapSet (m : List (String × CheckResult)) (v : CheckResult)
    (h : cacheInvariant m) : cacheInvariant (mapSet m v.id v) := by
  unfold mapSet
  by_cases hc : (m.any fun p => p.1 = v.id) = true
  · rw [if_pos hc]
    intro p hp
    obtain ⟨q, hq, hqe⟩ := List.mem_map.mp hp
    by_cases hqk : q.1 = v.id
    · rw [if_pos hqk] at hqe
      rw [← hqe]
      exact ⟨rfl, status_mem_all _, Nat.zero_le _⟩
    · rw [if_neg hqk] at hqe
      exact hqe ▸ h q hq
  · rw [if_neg hc]
    intro p hp
    rcases List.mem_append.mp hp with h1 | h1
    · exact h p h1
    · have : p = (v.id, v) := by simpa using h1
      rw [this]
      exact ⟨rfl, status_mem_all _, Nat.zero_le _⟩

theorem cacheInvariant_foldl (rs : List CheckResult) (m : List (String × CheckResult))
    (h : cacheInvariant m) :
    cacheInvariant (rs.foldl (fun c r => mapSet c r.id r) m) := by
  induction rs generalizing m with
  | nil => exact h
  | cons r rs ih => exact ih _ (cacheInvariant_mapSet m r h)

theorem cacheInvariant_runRound (settings : Settings) (group : List ServiceDefinition)
    (probe : ProbeEnv) (now : String) (cache : List (String × CheckResult))
    (h : cacheInvariant cache) :
    cacheInvariant (runRound settings group probe now cache) :=
  cacheInvariant_foldl _ cache h

theorem cacheInvariant_startPolling_fold (settings : Settings) (probe : ProbeEnv)
    (now : String) (gs : List (Nat × List ServiceDefinition)) :
    ∀ acc : SchedulerState, cacheInvariant acc.statusCache →
      cacheInvariant ((gs.foldl (fun a g =>
          { a with statusCache := runRound settings g.2 probe now a.statusCache,
                   pollingIntervals := a.pollingIntervals ++ [g.1] }) acc).statusCache) := by
  induction gs with
  | nil => intro acc h; exact h
  | cons g gs ih =>
    intro acc h
    simp only [List.foldl_cons]
    exact ih _ (cacheInvariant_runRound settings g.2 probe now acc.statusCache h)

theorem cacheInvariant_empty : cacheInvariant [] := by
  intro p hp
  exact absurd hp (List.not_mem_nil p)

/-- C10: the status-cache invariant (stored id equals the key, legal
status, non-negative response time) is preserved by a full-round check
(`checkAllServices`), by `startPolling`'s initial rounds, and holds
outright after `reloadConfiguration`; consequently `getServiceStatus`
never answers a result whose id differs from the requested key. -/
theorem statusCache_invariant (st : SchedulerState) (probe : ProbeEnv) (now : String)
    (r : Option Config) (h : cacheInvariant st.statusCache) :
    cacheInvariant (checkAllServices st probe now).1.statusCache
    ∧ cacheInvariant (startPolling st probe now).statusCache
    ∧ cacheInvariant (reloadConfiguration r st probe now).statusCache
    ∧ ∀ (k : String) (res : CheckResult), getServiceStatus st k = some res →
        res.id = k ∧ res.status ∈ [Status.healthy, Status.warning, Status.down]
        ∧ res.responseTime ≥ 0 := by
  refine ⟨cacheInvariant_foldl _ _ h,
    cacheInvariant_startPolling_fold st.settings probe now (intervalGroups st.services) st h,
    ?_, ?_⟩
  · rw [reloadConfiguration_eq]
    have hcache : (loadConfiguration r
        { services := [], settings := defaultSettings,
          statusCache := [], pollingIntervals := [] }).statusCache = [] := by
      cases r <;> rfl
    exact cacheInvariant_startPolling_fold _ probe now _ _
      (by rw [hcache]; exact cacheInvariant_empty)
  · intro k res hg
    unfold getServiceStatus mapGet at hg
    cases hf : st.statusCache.find? (fun p => p.1 = k) with
    | none => rw [hf] at hg; exact Option.noConfusion hg
    | some p =>
      rw [hf] at hg
      have hres : p.2 = res := by injection hg
      have hpk : p.1 = k := by
        have := List.find?_some hf
        simpa using this
      have hw := h p (List.mem_of_find?_eq_some hf)
      rw [← hres]
      exact ⟨hw.1.trans hpk, hw.2.1, hw.2.2⟩

/-- Witness for `statusCache_invariant` on the freshly loaded one-service
state (whose cache is empty, trivially invariant). -/
theorem statusCache_invariant_witness :
    cacheInvariant stA.statusCache ∧
    (cacheInvariant (checkAllServices stA probeOk "t").1.statusCache
    ∧ cacheInvariant (startPolling stA probeOk "t").statusCache
    ∧ cacheInvariant (reloadConfiguration (some cfgA) stA probeOk "t").statusCache
    ∧ ∀ (k : String) (res : CheckResult), getServiceStatus stA k = some res →
        res.id = k ∧ res.status ∈ [Status.healthy, Status.warning, Status.down]
        ∧ res.responseTime ≥ 0) :=
  ⟨cacheInvariant_empty,
    statusCache_invariant stA probeOk "t" (some cfgA) cacheInvariant_empty⟩

end Dashboard
